import Mathlib

/-!
Verification development for the `kdp` preprocessing-model assembly engine
(`src/kdp/processor.py`).  The Python code is shallowly embedded: feature
descriptors, statistics records and pipeline steps become Lean data types,
the stateful builder methods become explicit state-passing functions, and
fallible dictionary accesses return `Except`.
-/

deriving instance DecidableEq for Except

namespace KDP

/-- TensorFlow dtype tags used by the processor (`tf.string`, `tf.float32`, ...). -/
inductive DTypeV
  | string
  | float32
  | int32
  | int64
  deriving DecidableEq

/-- The `.name` attribute of a TensorFlow dtype (used by `serialize_dtype`). -/
def DTypeV.name : DTypeV → String
  | .string => "string"
  | .float32 => "float32"
  | .int32 => "int32"
  | .int64 => "int64"

/-- The `FeatureType` enum.  Its members are the ones referenced by
`processor.py` (the enum itself lives in `kdp/features.py`, outside `src/`). -/
inductive FeatureType
  | FLOAT
  | FLOAT_NORMALIZED
  | FLOAT_RESCALED
  | FLOAT_DISCRETIZED
  | INTEGER_CATEGORICAL
  | STRING_CATEGORICAL
  | TEXT
  | DATE
  deriving DecidableEq

/-- Enum member name, as used by the `FeatureType[...]` name lookup. -/
def FeatureType.memberName : FeatureType → String
  | .FLOAT => "FLOAT"
  | .FLOAT_NORMALIZED => "FLOAT_NORMALIZED"
  | .FLOAT_RESCALED => "FLOAT_RESCALED"
  | .FLOAT_DISCRETIZED => "FLOAT_DISCRETIZED"
  | .INTEGER_CATEGORICAL => "INTEGER_CATEGORICAL"
  | .STRING_CATEGORICAL => "STRING_CATEGORICAL"
  | .TEXT => "TEXT"
  | .DATE => "DATE"

/-- All members of the `FeatureType` enum. -/
def FeatureType.members : List FeatureType :=
  [.FLOAT, .FLOAT_NORMALIZED, .FLOAT_RESCALED, .FLOAT_DISCRETIZED,
   .INTEGER_CATEGORICAL, .STRING_CATEGORICAL, .TEXT, .DATE]

/-- Python `str.upper()` (the tags are ASCII identifiers). -/
def pyUpper (s : String) : String :=
  String.mk (s.data.map Char.toUpper)

/-- Enum lookup by member name: the semantics of `FeatureType[s]`
(`None` models the `KeyError` case). -/
def featureTypeOfName (s : String) : Option FeatureType :=
  FeatureType.members.find? (fun t => t.memberName == s)

/-- Values that can appear in a feature's keyword-configuration mapping. -/
inductive KwVal
  | num (q : ℚ)
  | natV (n : Nat)
  | listQ (l : List ℚ)
  | strV (s : String)
  | strList (l : List String)
  | boolV (b : Bool)
  deriving DecidableEq

/-- Python truthiness of a keyword value (for checks such as `if _stop_words:`). -/
def KwVal.truthy : KwVal → Bool
  | .num q => q != 0
  | .natV n => n != 0
  | .listQ l => !l.isEmpty
  | .strV s => !s.isEmpty
  | .strList l => !l.isEmpty
  | .boolV b => b

/-- Python `len(...)` on a keyword value; non-sized values raise `TypeError`. -/
def KwVal.pyLen : KwVal → Option Nat
  | .listQ l => some l.length
  | .strList l => some l.length
  | .strV s => some s.length
  | _ => none

/-- The `CategoryEncodingOptions` enum from `kdp/features.py` (outside `src/`).
The processor distinguishes `EMBEDDING` and `ONE_HOT_ENCODING`; `NONE` models a
feature whose configured encoding is neither (the implicit else-branch). -/
inductive CategoryEncodingOptions
  | EMBEDDING
  | ONE_HOT_ENCODING
  | NONE
  deriving DecidableEq

/-- The concrete Python class of a feature object: one of the four standard
descriptor classes, or the plain `Feature` base class (custom pipelines). -/
inductive FClass
  | numericF
  | categoricalF
  | textF
  | dateF
  | baseF
  deriving DecidableEq

/-- A feature descriptor object (`kdp/features.py` classes, as consumed by the
processor: `name`, `feature_type`, `preprocessors`, `kwargs`,
`category_encoding`, `dtype`). -/
structure Feature where
  cls : FClass
  name : String
  feature_type : FeatureType
  preprocessors : List String := []
  kwargs : List (String × KwVal) := []
  category_encoding : CategoryEncodingOptions := .NONE
  dtype : DTypeV := .string
  deriving DecidableEq

/-- Modelled from the spec: `NumericalFeature(name=..., feature_type=...)`
construction; `kdp/features.py` is outside `src/`, the spec gives the
descriptor a declared dtype. -/
def mkNumericalFeature (name : String) (t : FeatureType) : Feature :=
  { cls := .numericF, name := name, feature_type := t, dtype := .float32 }

/-- Modelled from the spec: `CategoricalFeature(name=..., feature_type=...)`
construction (`kdp/features.py` is outside `src/`). -/
def mkCategoricalFeature (name : String) (t : FeatureType) : Feature :=
  { cls := .categoricalF, name := name, feature_type := t,
    dtype := if t = .INTEGER_CATEGORICAL then .int32 else .string }

/-- Modelled from the spec: `TextFeature(name=..., feature_type=TEXT)`
construction (`kdp/features.py` is outside `src/`). -/
def mkTextFeature (name : String) : Feature :=
  { cls := .textF, name := name, feature_type := .TEXT, dtype := .string }

/-- Modelled from the spec: `DateFeature(name=..., feature_type=DATE)`
construction (`kdp/features.py` is outside `src/`). -/
def mkDateFeature (name : String) : Feature :=
  { cls := .dateF, name := name, feature_type := .DATE, dtype := .string }

/-- Ordered-dictionary helpers: Python dict assignment `d[k] = v` keeps the
position of an existing key and appends a new one. -/
def odSet {α : Type} [DecidableEq α] {β : Type} (d : List (α × β)) (k : α) (v : β) :
    List (α × β) :=
  if d.any (fun kv => kv.1 == k) then
    d.map (fun kv => if kv.1 = k then (k, v) else kv)
  else
    d ++ [(k, v)]

/-- Python `d.get(k)` / `k in d`. -/
def odGet? {α : Type} [DecidableEq α] {β : Type} (d : List (α × β)) (k : α) : Option β :=
  (d.find? (fun kv => kv.1 == k)).map (fun kv => kv.2)

/-- Python `k in d`. -/
def odHasKey {α : Type} [DecidableEq α] {β : Type} (d : List (α × β)) (k : α) : Bool :=
  (odGet? d k).isSome

/-- A value stored in a feature's statistics record (`mean`, `var`, `vocab`,
`dtype`, ...). -/
inductive StatVal
  | num (q : ℚ)
  | vocab (v : List String)
  | dtype (d : DTypeV)
  | str (s : String)
  deriving DecidableEq

/-- A per-feature statistics record, e.g. `{"mean": 30, "var": 25}`. -/
abbrev Stats := List (String × StatVal)

/-- Errors raised while building pipelines: Python `KeyError`, `TypeError`
and `ValueError`. -/
inductive BuildError
  | keyError (k : String)
  | typeError
  | valueError (msg : String)
  deriving DecidableEq

/-- `stats[k]`: raises `KeyError` when the key is absent. -/
def statGet (stats : Stats) (k : String) : Except BuildError StatVal :=
  match odGet? stats k with
  | some v => .ok v
  | none => .error (.keyError k)

/-- `stats.get(k, default)`. -/
def statGetD (stats : Stats) (k : String) (d : StatVal) : StatVal :=
  (odGet? stats k).getD d

/-- `k in stats`. -/
def hasStat (stats : Stats) (k : String) : Bool :=
  (odGet? stats k).isSome

/-- Python `len(...)` on a statistics value (`len(vocab)`); raises `TypeError`
on a non-sized value. -/
def statLen : StatVal → Except BuildError Nat
  | .vocab v => .ok v.length
  | .str s => .ok s.length
  | _ => .error .typeError

/-- One transform in a feature's preprocessing chain, as registered by
`add_processing_step` (layer class or factory layer plus its arguments and
its `name=` argument). -/
inductive Step
  | normalization (mean variance : StatVal) (name : String)
  | rescaling (scale : KwVal) (name : String)
  | discretization (kwargs : List (String × KwVal)) (name : String)
  | categoryEncoding (numTokens : Nat) (outputMode : String) (name : String)
  | castToFloat32 (name : String)
  | stringLookup (vocabulary : StatVal) (numOovIndices : Nat) (name : String)
  | integerLookup (vocabulary : StatVal) (numOovIndices : Nat) (name : String)
  | embedding (inputDim : Nat) (embeddingSizeKw : Option KwVal) (name : String)
  | flatten (name : String)
  | hashedCrossing (numBins : Nat) (name : String)
  | textPreprocessing (kwargs : List (String × KwVal)) (name : String)
  | textVectorization (vocabulary : StatVal) (kwargs : List (String × KwVal)) (name : String)
  | dateParsing (dateFormat : KwVal) (name : String)
  | dateEncoding (name : String)
  | dateSeason (name : String)
  | custom (layerName : String) (name : String) (kwargs : List (String × KwVal))
  deriving DecidableEq

/-- A feature's ordered preprocessing chain. -/
abbrev Pipeline := List Step

/-- `_add_custom_steps`: one step per entry of `feature.preprocessors`, named
`{step}_{feature_name}`, with the feature's kwargs. -/
def customSteps (f : Feature) : Pipeline :=
  f.preprocessors.map (fun p => Step.custom p (p ++ "_" ++ f.name) f.kwargs)

/-- `kwargs.get(k, default)`. -/
def kwargsGetD (kwargs : List (String × KwVal)) (k : String) (d : KwVal) : KwVal :=
  (odGet? kwargs k).getD d

/-- `_add_pipeline_numeric` (processor.py lines 474-553), chain construction:
extracts `stats["mean"]` and `stats["var"]` first, then either appends the
custom steps or applies the per-subtype default policy. -/
def addPipelineNumeric (feature : Feature) (stats : Stats) : Except BuildError Pipeline := do
  let mean ← statGet stats "mean"
  let variance ← statGet stats "var"
  if feature.preprocessors ≠ [] then
    pure (customSteps feature)
  else if feature.feature_type = .FLOAT_NORMALIZED then
    pure [.normalization mean variance ("norm_" ++ feature.name)]
  else if feature.feature_type = .FLOAT_RESCALED then
    let scale := kwargsGetD feature.kwargs "scale" (.num 1)
    pure [.rescaling scale ("rescale_" ++ feature.name)]
  else if feature.feature_type = .FLOAT_DISCRETIZED then
    match (kwargsGetD feature.kwargs "bin_boundaries" (.num 1)).pyLen with
    | none => .error .typeError
    | some n =>
      pure [.discretization feature.kwargs ("discretize_" ++ feature.name),
            .categoryEncoding (n + 1) "one_hot" ("one_hot_" ++ feature.name),
            .castToFloat32 ("cast_to_float_" ++ feature.name)]
  else
    pure [.normalization mean variance ("norm_" ++ feature.name)]

/-- `_add_pipeline_categorical` (processor.py lines 556-631), chain
construction: extracts `stats["vocab"]` first; lookup step (or custom steps),
then the configured category encoding, then an unconditional flatten step. -/
def addPipelineCategorical (feature : Feature) (stats : Stats) :
    Except BuildError Pipeline := do
  let vocab ← statGet stats "vocab"
  let base ←
    if feature.preprocessors ≠ [] then
      pure (customSteps feature)
    else if feature.feature_type = .STRING_CATEGORICAL then
      pure [Step.stringLookup vocab 1 ("lookup_" ++ feature.name)]
    else if feature.feature_type = .INTEGER_CATEGORICAL then
      pure [Step.integerLookup vocab 1 ("lookup_" ++ feature.name)]
    else
      pure ([] : Pipeline)
  let enc ←
    match feature.category_encoding with
    | .EMBEDDING => do
      let n ← statLen vocab
      pure [Step.embedding (n + 1) (odGet? feature.kwargs "embedding_size")
              ("embed_" ++ feature.name)]
    | .ONE_HOT_ENCODING => do
      let n ← statLen vocab
      pure [Step.categoryEncoding (n + 1) "one_hot" ("one_hot_" ++ feature.name),
            Step.castToFloat32 ("cast_to_float_" ++ feature.name)]
    | .NONE => pure ([] : Pipeline)
  pure (base ++ enc ++ [Step.flatten ("flatten_" ++ feature.name)])

/-- `_add_pipeline_text` (processor.py lines 634-689), chain construction.
Returns the chain and the (possibly kwargs-mutated) feature, because the
source writes the default `output_sequence_length` back into the feature's
kwargs. -/
def addPipelineText (feature : Feature) (stats : Stats) :
    Except BuildError (Pipeline × Feature) := do
  let vocab ← statGet stats "vocab"
  if feature.preprocessors ≠ [] then
    pure (customSteps feature, feature)
  else
    let stopWords := kwargsGetD feature.kwargs "stop_words" (.strList [])
    let pre :=
      if stopWords.truthy then
        [Step.textPreprocessing feature.kwargs ("text_preprocessor_" ++ feature.name)]
      else
        ([] : Pipeline)
    let kwargs2 :=
      if odHasKey feature.kwargs "output_sequence_length" then
        feature.kwargs
      else
        feature.kwargs ++ [("output_sequence_length", KwVal.natV 35)]
    pure (pre ++ [Step.textVectorization vocab kwargs2 ("text_vactorizer_" ++ feature.name),
                  Step.castToFloat32 ("cast_to_float_" ++ feature.name)],
          { feature with kwargs := kwargs2 })

/-- `_add_pipeline_date` (processor.py lines 727-777), chain construction. -/
def addPipelineDate (feature : Feature) : Pipeline :=
  if feature.preprocessors ≠ [] then
    customSteps feature
  else if feature.feature_type = .DATE then
    [Step.dateParsing (kwargsGetD feature.kwargs "format" (.strV "YYYY-MM-DD"))
       ("date_parsing_" ++ feature.name),
     Step.dateEncoding ("date_encoding_" ++ feature.name)]
    ++ (if (kwargsGetD feature.kwargs "add_season" (.boolV false)).truthy then
          [Step.dateSeason ("date_season_" ++ feature.name)]
        else [])
  else
    []

/-- A user-supplied entry of `features_specs`: a feature-class instance
(standard or base `Feature`), a `FeatureType` enum value, or a string tag. -/
inductive FSpec
  | inst (f : Feature)
  | ftype (t : FeatureType)
  | strTag (s : String)
  deriving DecidableEq

/-- Errors raised by `FeatureSpaceConverter._init_features_specs`: the
`KeyError` from `FeatureType[spec.upper()]`, or the
`ValueError("Unsupported feature type for feature '{name}': {spec}")`. -/
inductive InitError
  | keyError (tag : String)
  | unsupportedType (featureName : String) (specText : String)
  deriving DecidableEq

/-- Whether the error message identifies the offending feature by name: only
the unsupported-feature-type `ValueError` interpolates the feature name. -/
def errorNamesFeature (e : InitError) (name : String) : Bool :=
  match e with
  | .unsupportedType n _ => n == name
  | .keyError _ => false

/-- Constructing a kind-specific feature object from a resolved
`FeatureType` (processor.py lines 83-97). -/
def featureFromType (name : String) (t : FeatureType) (specText : String) :
    Except InitError Feature :=
  if t ∈ [FeatureType.FLOAT, .FLOAT_NORMALIZED, .FLOAT_RESCALED, .FLOAT_DISCRETIZED] then
    .ok (mkNumericalFeature name t)
  else if t ∈ [FeatureType.INTEGER_CATEGORICAL, .STRING_CATEGORICAL] then
    .ok (mkCategoricalFeature name t)
  else if t = .TEXT then
    .ok (mkTextFeature name)
  else if t = .DATE then
    .ok (mkDateFeature name)
  else
    .error (.unsupportedType name specText)

/-- Whether a spec entry is an instance of one of the four standard feature
classes (the first `isinstance` check, processor.py line 72). -/
def FSpec.isStdInstance : FSpec → Bool
  | .inst f => f.cls != FClass.baseF
  | _ => false

/-- Whether a spec entry is a `Feature` instance at all (the standard classes
subclass `Feature`; processor.py lines 76 and 100). -/
def FSpec.isFeatureInstance : FSpec → Bool
  | .inst _ => true
  | _ => false

/-- One iteration of `FeatureSpaceConverter._init_features_specs`
(processor.py lines 70-103): resolve the spec entry to a feature instance,
then attach custom preprocessors and kwargs when the spec was a `Feature`. -/
def initOneFeature (name : String) (spec : FSpec) : Except InitError Feature := do
  let fi ←
    match spec with
    | .inst f =>
      if f.cls != FClass.baseF then
        pure f
      else
        featureFromType name f.feature_type f.name
    | .ftype t => featureFromType name t t.memberName
    | .strTag s =>
      match featureTypeOfName (pyUpper s) with
      | some t => featureFromType name t s
      | none => .error (.keyError (pyUpper s))
  match spec with
  | .inst f => pure { fi with preprocessors := f.preprocessors, kwargs := f.kwargs }
  | _ => pure fi

/-- The state of a `FeatureSpaceConverter`: the formatted feature space and
the four per-kind ordered name sequences. -/
structure ConverterState where
  features_space : List (String × Feature) := []
  numeric_features : List String := []
  categorical_features : List String := []
  text_features : List String := []
  date_features : List String := []
  deriving DecidableEq

/-- Categorize a built feature instance into the per-kind name lists
(processor.py lines 105-116) and record it in the feature space. -/
def convertOne (cs : ConverterState) (name : String) (spec : FSpec) :
    Except InitError ConverterState := do
  let fi ← initOneFeature name spec
  let cs :=
    match fi.cls with
    | .numericF => { cs with numeric_features := cs.numeric_features ++ [name] }
    | .categoricalF => { cs with categorical_features := cs.categorical_features ++ [name] }
    | .textF => { cs with text_features := cs.text_features ++ [name] }
    | .dateF => { cs with date_features := cs.date_features ++ [name] }
    | .baseF => cs
  pure { cs with features_space := odSet cs.features_space name fi }

/-- `FeatureSpaceConverter._init_features_specs` over the whole declaration
mapping, in declaration order. -/
def initFeaturesSpecs (specs : List (String × FSpec)) : Except InitError ConverterState :=
  specs.foldlM (fun cs kv => convertOne cs kv.1 kv.2) {}

/-- Key of an entry of `self.inputs`.  `_add_input_column` is normally called
with the feature's name; the cross builder passes the feature object itself,
so the key type must distinguish both. -/
inductive InputKey
  | name (s : String)
  | obj (f : Feature)
  deriving DecidableEq

/-- A Keras `Input` placeholder: `shape=(1,)`, `name`, `dtype`
(processor.py lines 283-298). -/
structure InputPlaceholder where
  shape : List Nat
  name : InputKey
  dtype : StatVal
  deriving DecidableEq

/-- A `tf.TensorSpec` input-signature entry: `shape=(None, 1)`, `dtype`,
`name` (processor.py lines 300-316). -/
structure TensorSpecV where
  shape : List (Option Nat)
  dtype : StatVal
  name : String
  deriving DecidableEq

/-- The mutable state of a `PreprocessingModel` threaded through the build. -/
structure ModelState where
  features_specs : List (String × Feature)
  numeric_features : List String
  categorical_features : List String
  text_features : List String
  date_features : List String
  feature_crosses : List (String × String × Nat)
  output_mode : String
  inputs : List (InputKey × InputPlaceholder) := []
  signature : List (String × TensorSpecV) := []
  outputs : List (String × Pipeline) := []
  outputs_categorical : List (String × Pipeline) := []
  deriving DecidableEq

/-- Build the `ModelState` from a converter run (processor.py lines 241-260)
plus the constructor arguments `feature_crosses` and `output_mode`. -/
def mkModelState (cs : ConverterState) (crosses : List (String × String × Nat))
    (mode : String) : ModelState :=
  { features_specs := cs.features_space,
    numeric_features := cs.numeric_features,
    categorical_features := cs.categorical_features,
    text_features := cs.text_features,
    date_features := cs.date_features,
    feature_crosses := crosses,
    output_mode := mode }

/-- `_add_input_column`: `self.inputs[key] = tf.keras.Input(shape=(1,),
name=key, dtype=dtype)`. -/
def addInputColumn (st : ModelState) (key : InputKey) (dtype : StatVal) : ModelState :=
  { st with inputs := odSet st.inputs key { shape := [1], name := key, dtype := dtype } }

/-- `_add_input_signature`: `self.signature[name] = tf.TensorSpec(
shape=(None, 1), dtype=dtype, name=name)`. -/
def addInputSignature (st : ModelState) (name : String) (dtype : StatVal) : ModelState :=
  { st with signature := odSet st.signature name ({ shape := [none, some 1], dtype := dtype, name := name } : TensorSpecV) }

/-- The per-feature body of `_parallel_setup_inputs.setup_input`
(processor.py lines 420-423): the dtype defaults to `tf.string` when the
statistics record has no `dtype` entry, and both the input placeholder and
the input signature are created from it. -/
def setupInput (name : String) (stats : Stats) : InputPlaceholder × TensorSpecV :=
  let dtype := statGetD stats "dtype" (.dtype .string)
  ({ shape := [1], name := .name name, dtype := dtype },
   { shape := [none, some 1], dtype := dtype, name := name })

/-- `_parallel_setup_inputs`: create the placeholder and signature of every
feature of the batch (each worker writes its own disjoint map slot, so the
parallel fan-out is modelled as a fold). -/
def parallelSetupInputs (st : ModelState) (featuresDict : List (String × Stats)) :
    ModelState :=
  featuresDict.foldl
    (fun st kv =>
      let ps := setupInput kv.1 kv.2
      { st with inputs := odSet st.inputs (.name kv.1) ps.1,
                signature := odSet st.signature kv.1 ps.2 })
    st

/-- The four kind groups of `_process_features_parallel`. -/
inductive FeatureKind
  | numeric
  | categorical
  | text
  | date
  deriving DecidableEq

/-- The grouping rule of `_process_features_parallel` (processor.py lines
447-455): `mean` in stats → numeric; else `vocab` in stats and not a declared
text feature → categorical; else a declared text feature → text; else a
declared date feature → date. -/
def classifyFeature (st : ModelState) (name : String) (stats : Stats) :
    Option FeatureKind :=
  if hasStat stats "mean" then
    some .numeric
  else if hasStat stats "vocab" && !(st.text_features.contains name) then
    some .categorical
  else if st.text_features.contains name then
    some .text
  else if st.date_features.contains name then
    some .date
  else
    none

/-- `self.inputs.get(feature_name)` by name key. -/
def getInputByName (st : ModelState) (name : String) : Option InputPlaceholder :=
  odGet? st.inputs (.name name)

/-- Mandatory dictionary access returning `KeyError` on a missing slot. -/
def expectSome {β : Type} (o : Option β) (e : BuildError) : Except BuildError β :=
  match o with
  | some v => .ok v
  | none => .error e

/-- One dispatched build of `_process_feature_batch` (processor.py lines
366-411): look up the feature's input layer and spec, build the kind's chain,
and write the single output-map slot keyed by the feature's own name (text
routes to the categorical-joinable map only in concat output mode). -/
def buildDispatch (st : ModelState) (kind : FeatureKind) (name : String)
    (stats : Stats) : Except BuildError ModelState := do
  let _inputLayer ← expectSome (getInputByName st name) (.keyError name)
  let feature ← expectSome (odGet? st.features_specs name) (.keyError name)
  match kind with
  | .numeric => do
    let p ← addPipelineNumeric feature stats
    pure { st with outputs := odSet st.outputs name p }
  | .categorical => do
    let p ← addPipelineCategorical feature stats
    pure { st with outputs_categorical := odSet st.outputs_categorical name p }
  | .text => do
    let pf ← addPipelineText feature stats
    let st := { st with features_specs := odSet st.features_specs name pf.2 }
    if st.output_mode = "concat" then
      pure { st with outputs_categorical := odSet st.outputs_categorical name pf.1 }
    else
      pure { st with outputs := odSet st.outputs name pf.1 }
  | .date => do
    let p := addPipelineDate feature
    pure { st with outputs := odSet st.outputs name p }

/-- `_process_feature_batch` over one kind group (first raised error aborts
the batch and propagates). -/
def processFeatureBatch (st : ModelState) (kind : FeatureKind)
    (batch : List (String × Stats)) : Except BuildError ModelState :=
  batch.foldlM (fun st kv => buildDispatch st kind kv.1 kv.2) st

/-- `_process_features_parallel` (processor.py lines 434-471): group the
features by statistics content, set up all inputs, then build each group. -/
def processFeaturesParallel (st : ModelState) (featuresDict : List (String × Stats)) :
    Except BuildError ModelState := do
  let group := fun (k : FeatureKind) =>
    featuresDict.filter (fun kv => classifyFeature st kv.1 kv.2 == some k)
  let st := parallelSetupInputs st featuresDict
  let st ← processFeatureBatch st .numeric (group .numeric)
  let st ← processFeatureBatch st .categorical (group .categorical)
  let st ← processFeatureBatch st .text (group .text)
  processFeatureBatch st .date (group .date)

/-- The ensure-inputs loop body of `_add_pipeline_cross` (processor.py lines
703-710).  When the feature has no input placeholder, the source calls
`self._add_input_column(feature_name=_feature, dtype=_col_dtype)`, passing
the feature OBJECT where a name is expected, so the new placeholder is keyed
by the object, not by the feature's name. -/
def ensureCrossInput (st : ModelState) (featureName : String) :
    Except BuildError ModelState := do
  let feature ← expectSome (odGet? st.features_specs featureName) (.keyError featureName)
  match getInputByName st featureName with
  | some _ => pure st
  | none => pure (addInputColumn st (.obj feature) (.dtype feature.dtype))

/-- One cross of `_add_pipeline_cross` (processor.py lines 699-725): ensure
both inputs, build the HashedCrossing + float-cast chain, look the two inputs
up BY NAME, and store the result under the composite key `{a}_x_{b}`. -/
def addPipelineCrossOne (st : ModelState) (fa fb : String) (nrBins : Nat) :
    Except BuildError ModelState := do
  let st ← ensureCrossInput st fa
  let st ← ensureCrossInput st fb
  let key := fa ++ "_x_" ++ fb
  let _ia ← expectSome (getInputByName st fa) (.keyError fa)
  let _ib ← expectSome (getInputByName st fb) (.keyError fb)
  pure { st with outputs := odSet st.outputs key [Step.hashedCrossing nrBins ("cross_" ++ key), Step.castToFloat32 ("cast_to_float_" ++ key)] }

/-- `_add_pipeline_cross` over all declared crosses, in declaration order. -/
def addPipelineCross (st : ModelState) : Except BuildError ModelState :=
  st.feature_crosses.foldlM (fun st c => addPipelineCrossOne st c.1 c.2.1 c.2.2) st

/-- Text-feature statistics used by the text loop of `build_preprocessor`
(processor.py lines 925-939): `features_stats["text"][name]` when present,
otherwise the default text-processing configuration. -/
def textStatsFor (featuresStats : List (String × List (String × Stats)))
    (name : String) : Stats :=
  match odGet? featuresStats "text" with
  | some textDict =>
    match odGet? textDict name with
    | some s => s
    | none => [("vocab_size", .num 10000), ("sequence_length", .num 100),
               ("dtype", .dtype .string)]
  | none => [("vocab_size", .num 10000), ("sequence_length", .num 100),
             ("dtype", .dtype .string)]

/-- One iteration of the text loop of `build_preprocessor` (processor.py
lines 919-945): create the string input column and signature, then build the
text pipeline, routing its output by output mode. -/
def buildTextFeature (st : ModelState)
    (featuresStats : List (String × List (String × Stats))) (name : String) :
    Except BuildError ModelState := do
  let st := addInputSignature (addInputColumn st (.name name) (.dtype .string)) name
      (.dtype .string)
  let _inputLayer ← expectSome (getInputByName st name) (.keyError name)
  let feature ← expectSome (odGet? st.features_specs name) (.keyError name)
  let pf ← addPipelineText feature (textStatsFor featuresStats name)
  let st := { st with features_specs := odSet st.features_specs name pf.2 }
  if st.output_mode = "concat" then
    pure { st with outputs_categorical := odSet st.outputs_categorical name pf.1 }
  else
    pure { st with outputs := odSet st.outputs name pf.1 }

/-- One iteration of the date loop of `build_preprocessor` (processor.py
lines 948-957). -/
def buildDateFeature (st : ModelState) (name : String) :
    Except BuildError ModelState := do
  let st := addInputSignature (addInputColumn st (.name name) (.dtype .string)) name
      (.dtype .string)
  let _inputLayer ← expectSome (getInputByName st name) (.keyError name)
  let feature ← expectSome (odGet? st.features_specs name) (.keyError name)
  pure { st with outputs := odSet st.outputs name (addPipelineDate feature) }

/-- The graph-building portion of `build_preprocessor` (processor.py lines
898-957): the no-features validation, the stats-driven parallel passes, the
cross builder, and the text and date loops. -/
def buildPreprocessor (st : ModelState)
    (featuresStats : List (String × List (String × Stats))) :
    Except BuildError ModelState := do
  if st.features_specs = [] then
    .error (.valueError "No features specified. Please provide features_specs.")
  else
    let st ← featuresStats.foldlM (fun st kv => processFeaturesParallel st kv.2) st
    let st ← if st.feature_crosses ≠ [] then addPipelineCross st else pure st
    let st ← st.text_features.foldlM (fun st n => buildTextFeature st featuresStats n) st
    st.date_features.foldlM (fun st n => buildDateFeature st n) st

/-- The reshape condition of the CONCAT fusion branch, processor.py line 794:
`len(feature.shape) == 2 | 4`.  By Python operator precedence the bitwise-or
binds tighter than the comparison, so the test is `rank == 6`. -/
def concatReshapeCond (rank : Nat) : Bool :=
  rank == (2 ||| 4)

/-- `tf.keras.layers.Reshape((-1,))` on a tensor shape (batch dimension
first): the per-sample dimensions are flattened into one. -/
def reshapeToFlat (shape : List Nat) : List Nat :=
  match shape with
  | [] => []
  | b :: rest => [b, rest.prod]

/-- The per-feature reshape of the CONCAT fusion branch (processor.py line
794). -/
def reshapeFeature (shape : List Nat) : List Nat :=
  if concatReshapeCond shape.length then reshapeToFlat shape else shape

/-- `tf.keras.layers.Concatenate(axis=-1)` over tensor shapes: requires equal
leading dimensions, sums the last. -/
def concatAxisLast (shapes : List (List Nat)) : Option (List Nat) :=
  match shapes with
  | [] => none
  | s :: rest =>
    if rest.all (fun t => t.dropLast == s.dropLast) then
      some (s.dropLast ++ [(shapes.map (fun t => t.getLastD 0)).sum])
    else
      none

/-- The CONCAT branch of `_prepare_outputs` (processor.py lines 787-826) at
the level of tensor shapes: reshape the plain outputs, concatenate plain and
categorical groups, then combine whichever groups are present. -/
def prepareOutputsConcat (plain categorical : List (List Nat)) : Option (List Nat) :=
  let reshaped := plain.map reshapeFeature
  let concatNum := if reshaped ≠ [] then concatAxisLast reshaped else none
  let concatCat := if categorical ≠ [] then concatAxisLast categorical else none
  match concatNum, concatCat with
  | some a, some b => concatAxisLast [a, b]
  | some a, none => some a
  | none, some b => some b
  | none, none => none

/-- Insert `u` into the ordered dict `d`, Python `OrderedDict.update`:
existing keys keep their position, new keys are appended in order. -/
def odUpdate (d : List (String × Option Pipeline)) (u : List (String × Pipeline)) :
    List (String × Option Pipeline) :=
  u.foldl (fun acc kv => odSet acc kv.1 (some kv.2)) d

/-- The DICT branch of `_prepare_outputs` (processor.py lines 856-858):
`OrderedDict([(k, None) for k in self.inputs if k in self.outputs])` updated
with `self.outputs`.  Only name-keyed inputs can match the string-keyed
outputs map. -/
def prepareOutputsDict (st : ModelState) : List (String × Option Pipeline) :=
  let seeded := st.inputs.filterMap (fun kv =>
    match kv.1 with
    | .name s => if odHasKey st.outputs s then some (s, (none : Option Pipeline)) else none
    | .obj _ => none)
  odUpdate seeded st.outputs

/-- A JSON-like metadata value, as assembled by `save_model`
(`tf.dtypes.DType` values are not JSON-native and are handled by the
`default=serialize_dtype` hook). -/
inductive MetaVal
  | str (s : String)
  | num (q : ℚ)
  | listV (l : List MetaVal)
  | obj (o : List (String × MetaVal))
  | dtypeV (d : DTypeV)

/-- Embed a statistics value into the metadata value space. -/
def statValToMeta : StatVal → MetaVal
  | .num q => .num q
  | .vocab v => .listV (v.map .str)
  | .dtype d => .dtypeV d
  | .str s => .str s

/-- Embed the nested `features_stats` mapping into the metadata value space. -/
def statsToMeta (featuresStats : List (String × List (String × Stats))) : MetaVal :=
  .obj (featuresStats.map (fun kv =>
    (kv.1, MetaVal.obj (kv.2.map (fun fv =>
      (fv.1, MetaVal.obj (fv.2.map (fun sv => (sv.1, statValToMeta sv.2)))))))))

/-- The `stats_metadata` block assembled by `save_model` (processor.py lines
1085-1093). -/
def statsMetadataBlock (st : ModelState)
    (featuresStats : List (String × List (String × Stats))) :
    List (String × MetaVal) :=
  [("feature_statistics", statsToMeta featuresStats),
   ("numeric_features", .listV (st.numeric_features.map .str)),
   ("categorical_features", .listV (st.categorical_features.map .str)),
   ("text_features", .listV (st.text_features.map .str)),
   ("date_features", .listV (st.date_features.map .str)),
   ("feature_crosses", .listV (st.feature_crosses.map (fun c =>
      MetaVal.listV [.str c.1, .str c.2.1, .num (c.2.2 : ℚ)]))),
   ("output_mode", .str st.output_mode)]

mutual

/-- The `json.loads(json.dumps(..., default=serialize_dtype))` round trip
(processor.py lines 1096-1111): every TensorFlow dtype value is replaced by
its string name, everything else is JSON-native and survives unchanged. -/
def serializeMeta : MetaVal → MetaVal
  | .dtypeV d => .str d.name
  | .num q => .num q
  | .str s => .str s
  | .listV l => .listV (serializeMetaList l)
  | .obj o => .obj (serializeMetaObj o)

/-- `serializeMeta` mapped over a JSON array. -/
def serializeMetaList : List MetaVal → List MetaVal
  | [] => []
  | x :: xs => serializeMeta x :: serializeMetaList xs

/-- `serializeMeta` mapped over a JSON object. -/
def serializeMetaObj : List (String × MetaVal) → List (String × MetaVal)
  | [] => []
  | (k, v) :: xs => (k, serializeMeta v) :: serializeMetaObj xs

end

/-- The error raised by `save_model`. -/
inductive SaveError
  | attributeError (attr : String)
  deriving DecidableEq

/-- Attribute lookup on the `PreprocessingModel` object for the signature
mapping: the constructor defines `self.signature` (processor.py line 182) and
no other assignment creates `self.signatures`. -/
def getSignatureAttr (st : ModelState) (attr : String) :
    Option (List (String × TensorSpecV)) :=
  if attr = "signature" then some st.signature else none

/-- The artifact handed to `model.save` when it is reached. -/
structure SavedArtifact where
  metadata : MetaVal
  signatures : List (String × TensorSpecV)

/-- `save_model` (processor.py lines 1076-1123): assemble and serialize the
`stats_metadata` block, then call `self.model.save(..., signatures=
self.signatures, ..., metadata=stats_metadata)`.  Evaluating
`self.signatures` is an attribute lookup that fails, because the object only
ever defines `self.signature`. -/
def saveModel (st : ModelState)
    (featuresStats : List (String × List (String × Stats))) :
    Except SaveError SavedArtifact := do
  let serialized := serializeMeta (.obj (statsMetadataBlock st featuresStats))
  match getSignatureAttr st "signatures" with
  | some sig => pure { metadata := serialized, signatures := sig }
  | none => .error (.attributeError "signatures")

/-- `load_model` (processor.py lines 1125-1149), metadata recovery:
`stats = model._metadata.get("feature_statistics", {})`. -/
def loadModelStats (metadata : MetaVal) : MetaVal :=
  match metadata with
  | .obj o => (odGet? o "feature_statistics").getD (.obj [])
  | _ => .obj []

/-- Keys of the plain output map. -/
def outputKeys (st : ModelState) : List String :=
  st.outputs.map Prod.fst

/-- Keys of the categorical output map. -/
def outputCatKeys (st : ModelState) : List String :=
  st.outputs_categorical.map Prod.fst

/-- Key effect of a Python dict assignment: an existing key keeps its
position, a new key is appended. -/
def odSetKeys {α : Type} [DecidableEq α] (keys : List α) (k : α) : List α :=
  if keys.any (fun x => x == k) then keys else keys ++ [k]

theorem getLast?_append_last {α : Type} (l1 l2 : List α) (a : α) :
    (l1 ++ (l2 ++ [a])).getLast? = some a := by
  rw [← List.append_assoc, List.getLast?_append_cons]
  rfl

theorem map_fst_replace {α β : Type} [DecidableEq α] (d : List (α × β)) (k : α) (v : β) :
    (d.map (fun kv => if kv.1 = k then (k, v) else kv)).map Prod.fst = d.map Prod.fst := by
  induction d with
  | nil => rfl
  | cons x xs ih =>
    simp only [List.map_cons, ih]
    by_cases hx : x.1 = k
    · simp [hx]
    · simp [hx]

theorem any_fst_eq_any {α β : Type} [DecidableEq α] (d : List (α × β)) (k : α) :
    (d.map Prod.fst).any (fun x => x == k) = d.any (fun kv => kv.1 == k) := by
  induction d with
  | nil => rfl
  | cons x xs ih => simp only [List.map_cons, List.any_cons, ih]

@[simp]
theorem except_bind_ok {ε α β : Type} (a : α) (f : α → Except ε β) :
    (Except.ok a : Except ε α) >>= f = f a := rfl

@[simp]
theorem except_bind_error {ε α β : Type} (e : ε) (f : α → Except ε β) :
    (Except.error e : Except ε α) >>= f = (Except.error e : Except ε β) := rfl

@[simp]
theorem except_map_ok {ε α β : Type} (g : α → β) (a : α) :
    Except.map g (Except.ok a : Except ε α) = Except.ok (g a) := rfl

@[simp]
theorem except_map_error {ε α β : Type} (g : α → β) (e : ε) :
    Except.map g (Except.error e : Except ε α) = (Except.error e : Except ε β) := rfl

@[simp]
theorem except_pure_eq_ok {ε α : Type} (a : α) :
    (pure a : Except ε α) = Except.ok a := rfl

theorem getLast?_cons_append_cons {α : Type} (x : α) (l : List α) (a : α) (l2 : List α) :
    (x :: (l ++ (a :: l2))).getLast? = (a :: l2).getLast? := by
  rw [← List.cons_append, List.getLast?_append_cons]

theorem odSet_map_fst {α β : Type} [DecidableEq α] (d : List (α × β)) (k : α) (v : β) :
    (odSet d k v).map Prod.fst = odSetKeys (d.map Prod.fst) k := by
  unfold odSet odSetKeys
  rw [any_fst_eq_any]
  by_cases h : d.any (fun kv => kv.1 == k) = true
  · rw [if_pos h, if_pos h, map_fst_replace]
  · rw [if_neg h, if_neg h]
    simp

/-- C1: the claim says the CONCAT fusion stage reshapes a plain per-feature
output to a flat 2-D shape if and only if its rank is 2 or 4.  In the source
the test is `len(feature.shape) == 2 | 4`, and by Python operator precedence
`2 | 4` is the bitwise-or 6, so only rank-6 tensors are reshaped: a rank-4
plain output passes through unchanged (and survives to the plain-output
concatenation unflattened), while a rank-6 output is flattened. -/
theorem C1_concat_reshape_tests_rank_six :
    concatReshapeCond 2 = false ∧ concatReshapeCond 4 = false ∧
    concatReshapeCond 6 = true ∧
    reshapeFeature [8, 2, 3, 4] = [8, 2, 3, 4] ∧
    reshapeFeature [8, 1, 1, 1, 1, 9] = [8, 9] ∧
    prepareOutputsConcat [[8, 2, 3, 4]] [] = some [8, 2, 3, 4] := by
  decide

/-- Declared feature `a` of the C3 cross scenario. -/
def crossFeatureA : Feature :=
  mkNumericalFeature "a" .FLOAT

/-- Declared feature `b` of the C3 cross scenario: it has no input
placeholder when the cross builder runs. -/
def crossFeatureB : Feature :=
  mkNumericalFeature "b" .FLOAT

/-- State of the C3 cross scenario: features `a` and `b` are declared, the
cross `("a", "b", 5)` is requested, and only `a` has an input placeholder. -/
def crossState : ModelState :=
  { features_specs := [("a", crossFeatureA), ("b", crossFeatureB)],
    numeric_features := ["a", "b"], categorical_features := [],
    text_features := [], date_features := [],
    feature_crosses := [("a", "b", 5)], output_mode := "concat",
    inputs := [(.name "a", { shape := [1], name := .name "a", dtype := .dtype .float32 })] }

/-- C3: the claim says the cross builder materializes a missing input
placeholder keyed by the feature's NAME and then builds the hashed-crossing
chain.  In the source the materialization call passes the feature object
(`feature_name=_feature`), so the new placeholder is keyed by the object;
the subsequent by-name lookup `self.inputs[feature_b]` then raises
`KeyError`, and no cross chain is stored. -/
theorem C3_cross_placeholder_keyed_by_object :
    (ensureCrossInput crossState "b").map (fun st => st.inputs.map Prod.fst)
      = .ok [.name "a", .obj crossFeatureB] ∧
    (ensureCrossInput crossState "b").map (fun st => (getInputByName st "b").isNone)
      = .ok true ∧
    addPipelineCross crossState = .error (.keyError "b") := by
  decide

/-- The kind of feature class constructed for each resolvable type tag. -/
def kindOfFeatureType : FeatureType → Option FeatureKind
  | .FLOAT | .FLOAT_NORMALIZED | .FLOAT_RESCALED | .FLOAT_DISCRETIZED => some .numeric
  | .INTEGER_CATEGORICAL | .STRING_CATEGORICAL => some .categorical
  | .TEXT => some .text
  | .DATE => some .date

/-- The kind corresponding to a feature object's concrete class. -/
def featureKindOfClass : FClass → Option FeatureKind
  | .numericF => some .numeric
  | .categoricalF => some .categorical
  | .textF => some .text
  | .dateF => some .date
  | .baseF => none

/-- C4 counterexample: for the feature `myfeature` declared with the
unresolvable string tag `bogus`, spec normalization raises the bare
`KeyError('BOGUS')` of `FeatureType[spec.upper()]` — not an "unsupported
feature type" error, and it does not identify the feature's name. -/
theorem C4_unresolvable_string_raises_bare_keyerror :
    initOneFeature "myfeature" (.strTag "bogus") = .error (.keyError "BOGUS") ∧
    errorNamesFeature (.keyError "BOGUS") "myfeature" = false := by
  decide

/-- C4 amended: string type tags are resolved case-insensitively (via
`upper()`), and a resolvable tag yields a descriptor of the matching kind;
but an unresolvable tag fails with a `KeyError` on the uppercased tag that
does not identify the offending feature's name (the "unsupported feature
type" `ValueError` naming the feature is only raised for a resolved type tag
outside the handled set). -/
theorem C4_string_resolution_amended (name s : String) :
    (featureTypeOfName (pyUpper s) = none →
      initOneFeature name (.strTag s) = .error (.keyError (pyUpper s)) ∧
      errorNamesFeature (.keyError (pyUpper s)) name = false) ∧
    (∀ t, featureTypeOfName (pyUpper s) = some t →
      (initOneFeature name (.strTag s)).map (fun f => featureKindOfClass f.cls)
        = .ok (kindOfFeatureType t)) := by
  constructor
  · intro h
    exact ⟨by simp [initOneFeature, h], rfl⟩
  · intro t h
    cases t <;>
      simp [initOneFeature, h, featureFromType, mkNumericalFeature,
        mkCategoricalFeature, mkTextFeature, mkDateFeature, featureKindOfClass,
        kindOfFeatureType]

/-- Witness for C4's amended theorem at the concrete tags `bogus` (in lower
case, unresolvable) and `Float_Normalized` (mixed case, resolvable). -/
theorem C4_string_resolution_amended_witness :
    (initOneFeature "myfeature" (.strTag "bogus") = .error (.keyError "BOGUS") ∧
      errorNamesFeature (.keyError "BOGUS") "myfeature" = false) ∧
    (initOneFeature "f" (.strTag "Float_Normalized")).map (fun f => featureKindOfClass f.cls)
      = .ok (kindOfFeatureType .FLOAT_NORMALIZED) := by
  constructor
  · have hup : pyUpper "bogus" = "BOGUS" := by decide
    have h := (C4_string_resolution_amended "myfeature" "bogus").1 (by decide)
    rw [hup] at h
    exact h
  · exact (C4_string_resolution_amended "f" "Float_Normalized").2 .FLOAT_NORMALIZED (by decide)

/-- A numeric feature of the C5 scenario carrying a fully-specified custom
preprocessing-step list. -/
def customNumFeature : Feature :=
  { cls := .numericF, name := "age", feature_type := .FLOAT_NORMALIZED,
    preprocessors := ["MyCustomLayer"], kwargs := [], dtype := .float32 }

/-- C5 counterexample: a numeric feature that carries a fully-specified
custom preprocessing-step list still fails with the missing-statistics
`KeyError('var')` when its statistics record lacks `var`, because
`_add_pipeline_numeric` reads `stats["mean"]` and `stats["var"]` before the
custom-pipeline check. -/
theorem C5_custom_pipeline_still_requires_stats :
    customNumFeature.preprocessors ≠ [] ∧
    addPipelineNumeric customNumFeature [("mean", .num 30)] = .error (.keyError "var") := by
  decide

/-- C5 amended: the numeric build step reads `mean` and `var` and the
categorical build step reads `vocab` unconditionally, before the
custom-pipeline check, so a missing required statistics key fails the build
step even for a feature with custom steps; when `mean` and `var` are
present, a NUMERIC feature with custom steps builds exactly its custom
steps without using the statistics values. -/
theorem C5_stats_required_before_custom_check (feature : Feature) (stats : Stats) :
    (odGet? stats "mean" = none →
      addPipelineNumeric feature stats = .error (.keyError "mean")) ∧
    (∀ m, odGet? stats "mean" = some m → odGet? stats "var" = none →
      addPipelineNumeric feature stats = .error (.keyError "var")) ∧
    (odGet? stats "vocab" = none →
      addPipelineCategorical feature stats = .error (.keyError "vocab")) ∧
    (∀ m v, feature.preprocessors ≠ [] → odGet? stats "mean" = some m →
      odGet? stats "var" = some v →
      addPipelineNumeric feature stats = .ok (customSteps feature)) := by
  refine ⟨?_, ?_, ?_, ?_⟩
  · intro h
    simp [addPipelineNumeric, statGet, h]
  · intro m hm hv
    simp [addPipelineNumeric, statGet, hm, hv]
  · intro h
    simp [addPipelineCategorical, statGet, h]
  · intro m v hp hm hv
    simp [addPipelineNumeric, statGet, hm, hv, hp]

/-- Witness for C5's amended theorem at concrete statistics records. -/
theorem C5_stats_required_before_custom_check_witness :
    (addPipelineNumeric customNumFeature [("var", .num 25)] = .error (.keyError "mean")) ∧
    (addPipelineNumeric customNumFeature [("mean", .num 30)] = .error (.keyError "var")) ∧
    (addPipelineCategorical customNumFeature [("mean", .num 30)] = .error (.keyError "vocab")) ∧
    (addPipelineNumeric customNumFeature [("mean", .num 30), ("var", .num 25)]
      = .ok (customSteps customNumFeature)) := by
  refine ⟨?_, ?_, ?_, ?_⟩
  · exact (C5_stats_required_before_custom_check customNumFeature [("var", .num 25)]).1 (by decide)
  · exact (C5_stats_required_before_custom_check customNumFeature [("mean", .num 30)]).2.1
      (.num 30) (by decide) (by decide)
  · exact (C5_stats_required_before_custom_check customNumFeature [("mean", .num 30)]).2.2.1
      (by decide)
  · exact (C5_stats_required_before_custom_check customNumFeature
      [("mean", .num 30), ("var", .num 25)]).2.2.2 (.num 30) (.num 25) (by decide) (by decide)
      (by decide)

/-- C7: for every numeric feature without custom steps, every subtype other
than FLOAT_RESCALED and FLOAT_DISCRETIZED — in particular FLOAT_NORMALIZED
and plain FLOAT (no subtype set) — builds the identical default pipeline: a
single normalization step parameterized by the `mean` and `var` statistics. -/
theorem C7_float_normalized_is_default (name : String) (kwargs : List (String × KwVal))
    (enc : CategoryEncodingOptions) (dt : DTypeV) (m v : ℚ) (ft : FeatureType)
    (h1 : ft ≠ .FLOAT_RESCALED) (h2 : ft ≠ .FLOAT_DISCRETIZED) :
    addPipelineNumeric
      { cls := .numericF, name := name, feature_type := ft, preprocessors := [],
        kwargs := kwargs, category_encoding := enc, dtype := dt }
      [("mean", .num m), ("var", .num v)]
      = .ok [.normalization (.num m) (.num v) ("norm_" ++ name)] := by
  cases ft <;> simp_all [addPipelineNumeric, statGet, odGet?]

/-- Witness for C7 at plain FLOAT with concrete statistics. -/
theorem C7_float_normalized_is_default_witness :
    addPipelineNumeric
      { cls := .numericF, name := "age", feature_type := .FLOAT, preprocessors := [],
        kwargs := [], category_encoding := .NONE, dtype := .float32 }
      [("mean", .num 30), ("var", .num 25)]
      = .ok [.normalization (.num 30) (.num 25) "norm_age"] :=
  C7_float_normalized_is_default "age" [] .NONE .float32 30 25 .FLOAT
    (by decide) (by decide)

/-- C9: during parallel input setup, a statistics-bearing feature whose
statistics record has no `dtype` entry gets an input placeholder of shape
`(1,)` and an input signature of shape `(None, 1)`, both with the silent
default dtype `tf.string`. -/
theorem C9_missing_dtype_defaults_to_string (name : String) (stats : Stats)
    (h : odGet? stats "dtype" = none) :
    setupInput name stats
      = ({ shape := [1], name := .name name, dtype := .dtype .string },
         { shape := [none, some 1], dtype := .dtype .string, name := name }) := by
  simp [setupInput, statGetD, h]

/-- Witness for C9 at a concrete statistics record without a `dtype` entry. -/
theorem C9_missing_dtype_defaults_to_string_witness :
    setupInput "f" [("mean", .num 3)]
      = ({ shape := [1], name := .name "f", dtype := .dtype .string },
         { shape := [none, some 1], dtype := .dtype .string, name := "f" }) :=
  C9_missing_dtype_defaults_to_string "f" [("mean", .num 3)] (by decide)

/-- Feature declarations of the spec's end-to-end scenario B: a numeric
`age` and a string-categorical `city`. -/
def scenarioBSpecs : List (String × FSpec) :=
  [("age", .ftype .FLOAT_NORMALIZED), ("city", .ftype .STRING_CATEGORICAL)]

/-- Statistics of scenario B: `age` has mean/variance, `city` has a
two-token vocabulary. -/
def scenarioBStats : List (String × List (String × Stats)) :=
  [("numeric", [("age", [("mean", .num 30), ("var", .num 25)])]),
   ("categorical", [("city", [("vocab", .vocab ["NYC", "LA"])])])]

/-- C2: the claim says DICT-mode build yields a name-ordered mapping whose
keys are exactly age then city.  On the code, `_add_pipeline_categorical`
always stores its output in `outputs_categorical`, and the DICT branch of
`_prepare_outputs` reads only `self.inputs` and `self.outputs`, so the
computed `city` output is dropped: the final mapping's keys are `["age"]`
while `city` sits only in the ignored categorical output map. -/
theorem C2_dict_mode_drops_categorical_output :
    (initFeaturesSpecs scenarioBSpecs).map (fun cs =>
      (buildPreprocessor (mkModelState cs [] "dict") scenarioBStats).map (fun st =>
        ((prepareOutputsDict st).map Prod.fst, st.outputs_categorical.map Prod.fst)))
      = .ok (.ok (["age"], ["city"])) := by
  decide

/-- C6: the claim says `save_model` saves the graph with the seven-key
metadata block.  The block is indeed assembled with exactly those keys and
`serialize_dtype` replaces every dtype by its string name, but the save call
then evaluates `self.signatures` — an attribute the object never defines
(only `self.signature` exists) — so every `save_model` call raises
`AttributeError` before anything is saved; and `load_model` recovers only
the `feature_statistics` entry of the block, not the whole block. -/
theorem C6_save_model_raises_attribute_error (st : ModelState)
    (featuresStats : List (String × List (String × Stats))) :
    saveModel st featuresStats = .error (.attributeError "signatures") ∧
    (statsMetadataBlock st featuresStats).map Prod.fst
      = ["feature_statistics", "numeric_features", "categorical_features",
         "text_features", "date_features", "feature_crosses", "output_mode"] ∧
    (∀ d : DTypeV, serializeMeta (.dtypeV d) = .str d.name) ∧
    loadModelStats (.obj (statsMetadataBlock st featuresStats))
      = statsToMeta featuresStats := by
  refine ⟨rfl, rfl, ?_, rfl⟩
  intro d
  cases d <;> rfl

/-- C8: for every categorical feature without custom steps, the default
chain begins with the string-to-index (STRING_CATEGORICAL) or
integer-to-index (INTEGER_CATEGORICAL) lookup over the statistics vocabulary
with exactly one OOV bucket; one-hot encoding adds a CategoryEncoding over
vocabulary size + 1 tokens followed by a float cast; and for every
categorical build — any subtype, any encoding, custom steps or not — the
flatten step is the last step of the chain. -/
theorem C8_categorical_default_pipeline (name : String) (vs : List String)
    (kwargs : List (String × KwVal)) (dt : DTypeV) (enc : CategoryEncodingOptions) :
    ((addPipelineCategorical
        { cls := .categoricalF, name := name, feature_type := .STRING_CATEGORICAL,
          preprocessors := [], kwargs := kwargs, category_encoding := enc, dtype := dt }
        [("vocab", .vocab vs)]).map List.head?
      = .ok (some (.stringLookup (.vocab vs) 1 ("lookup_" ++ name)))) ∧
    ((addPipelineCategorical
        { cls := .categoricalF, name := name, feature_type := .INTEGER_CATEGORICAL,
          preprocessors := [], kwargs := kwargs, category_encoding := enc, dtype := dt }
        [("vocab", .vocab vs)]).map List.head?
      = .ok (some (.integerLookup (.vocab vs) 1 ("lookup_" ++ name)))) ∧
    (addPipelineCategorical
        { cls := .categoricalF, name := name, feature_type := .STRING_CATEGORICAL,
          preprocessors := [], kwargs := kwargs,
          category_encoding := .ONE_HOT_ENCODING, dtype := dt }
        [("vocab", .vocab vs)]
      = .ok [.stringLookup (.vocab vs) 1 ("lookup_" ++ name),
             .categoryEncoding (vs.length + 1) "one_hot" ("one_hot_" ++ name),
             .castToFloat32 ("cast_to_float_" ++ name),
             .flatten ("flatten_" ++ name)]) ∧
    (∀ (ft : FeatureType) (pre : List String),
      (addPipelineCategorical
          { cls := .categoricalF, name := name, feature_type := ft,
            preprocessors := pre, kwargs := kwargs, category_encoding := enc, dtype := dt }
          [("vocab", .vocab vs)]).map (fun p => p.getLast?)
        = .ok (some (.flatten ("flatten_" ++ name)))) := by
  refine ⟨?_, ?_, ?_, ?_⟩
  · cases enc <;> simp [addPipelineCategorical, statGet, odGet?, statLen, List.find?]
  · cases enc <;> simp [addPipelineCategorical, statGet, odGet?, statLen, List.find?]
  · simp [addPipelineCategorical, statGet, odGet?, statLen, List.find?]
  · intro ft pre
    cases pre <;> cases ft <;> cases enc <;>
      simp [addPipelineCategorical, statGet, odGet?, statLen, List.find?, customSteps,
        getLast?_append_last] <;>
      simp [getLast?_cons_append_cons]

/-- C10: the grouping of `_process_features_parallel` assigns every feature
to at most one kind group with precedence numeric (statistics contain
`mean`) over categorical (`vocab` present and not a declared text feature)
over text over date — in particular a feature with both `mean` and `vocab`
is grouped numeric only; and every successful dispatched build writes
exactly one output-map slot, keyed by the feature's own name, leaving the
other output map unchanged. -/
theorem C10_grouping_precedence_and_single_write (st : ModelState) (name : String)
    (stats : Stats) :
    (hasStat stats "mean" = true → classifyFeature st name stats = some .numeric) ∧
    (hasStat stats "mean" = false → hasStat stats "vocab" = true →
      st.text_features.contains name = false →
      classifyFeature st name stats = some .categorical) ∧
    (hasStat stats "mean" = false → st.text_features.contains name = true →
      classifyFeature st name stats = some .text) ∧
    (hasStat stats "mean" = false → hasStat stats "vocab" = false →
      st.text_features.contains name = false → st.date_features.contains name = true →
      classifyFeature st name stats = some .date) ∧
    (∀ (kind : FeatureKind) (st2 : ModelState),
      buildDispatch st kind name stats = .ok st2 →
      (outputKeys st2 = odSetKeys (outputKeys st) name ∧
        outputCatKeys st2 = outputCatKeys st) ∨
      (outputKeys st2 = outputKeys st ∧
        outputCatKeys st2 = odSetKeys (outputCatKeys st) name)) := by
  refine ⟨?_, ?_, ?_, ?_, ?_⟩
  · intro h
    simp [classifyFeature, h]
  · intro h1 h2 h3
    have h3m : name ∉ st.text_features := by simpa using h3
    simp [classifyFeature, h1, h2, h3m]
  · intro h1 h2
    have h2m : name ∈ st.text_features := by simpa using h2
    simp [classifyFeature, h1, h2m]
  · intro h1 h2 h3 h4
    have h3m : name ∉ st.text_features := by simpa using h3
    have h4m : name ∈ st.date_features := by simpa using h4
    simp [classifyFeature, h1, h2, h3m, h4m]
  · intro kind st2 h
    cases hI : getInputByName st name with
    | none => simp [buildDispatch, expectSome, hI] at h
    | some inp =>
    cases hF : odGet? st.features_specs name with
    | none => simp [buildDispatch, expectSome, hI, hF] at h
    | some feature =>
    cases kind with
    | numeric =>
      cases hP : addPipelineNumeric feature stats with
      | error e => simp [buildDispatch, expectSome, hI, hF, hP] at h
      | ok p =>
        simp only [buildDispatch, expectSome, hI, hF, hP, except_bind_ok,
          except_pure_eq_ok, Except.ok.injEq] at h
        subst h
        exact Or.inl ⟨odSet_map_fst st.outputs name p, rfl⟩
    | categorical =>
      cases hP : addPipelineCategorical feature stats with
      | error e => simp [buildDispatch, expectSome, hI, hF, hP] at h
      | ok p =>
        simp only [buildDispatch, expectSome, hI, hF, hP, except_bind_ok,
          except_pure_eq_ok, Except.ok.injEq] at h
        subst h
        exact Or.inr ⟨rfl, odSet_map_fst st.outputs_categorical name p⟩
    | text =>
      cases hP : addPipelineText feature stats with
      | error e => simp [buildDispatch, expectSome, hI, hF, hP] at h
      | ok pf =>
        by_cases hm : st.output_mode = "concat"
        · simp only [buildDispatch, expectSome, hI, hF, hP, except_bind_ok,
            except_pure_eq_ok, hm, if_true, eq_self_iff_true, Except.ok.injEq] at h
          subst h
          exact Or.inr ⟨rfl, odSet_map_fst st.outputs_categorical name pf.1⟩
        · simp only [buildDispatch, expectSome, hI, hF, hP, except_bind_ok,
            except_pure_eq_ok, hm, if_false, Except.ok.injEq] at h
          subst h
          exact Or.inl ⟨odSet_map_fst st.outputs name pf.1, rfl⟩
    | date =>
      simp only [buildDispatch, expectSome, hI, hF, except_bind_ok,
        except_pure_eq_ok, Except.ok.injEq] at h
      subst h
      exact Or.inl ⟨odSet_map_fst st.outputs name (addPipelineDate feature), rfl⟩

/-- Concrete model state for the C10 witness: one numeric feature `f` with
an input placeholder. -/
def w10State : ModelState :=
  { features_specs := [("f", mkNumericalFeature "f" .FLOAT_NORMALIZED)],
    numeric_features := ["f"], categorical_features := [],
    text_features := [], date_features := [],
    feature_crosses := [], output_mode := "concat",
    inputs := [(.name "f", { shape := [1], name := .name "f", dtype := .dtype .string })] }

/-- Variant of the C10 witness state declaring `f` as a text feature. -/
def w10StateText : ModelState :=
  { w10State with text_features := ["f"] }

/-- Variant of the C10 witness state declaring `f` as a date feature. -/
def w10StateDate : ModelState :=
  { w10State with date_features := ["f"] }

/-- Statistics record of the C10 witness carrying both `mean` and `vocab`. -/
def w10Stats : Stats :=
  [("mean", .num 1), ("var", .num 2), ("vocab", .vocab ["x"])]

/-- Result state of dispatching the numeric build in the C10 witness. -/
def w10Result : ModelState :=
  { w10State with outputs := [("f", [.normalization (.num 1) (.num 2) "norm_f"])] }

/-- Witness for C10 at concrete states and statistics: a record with both
`mean` and `vocab` classifies numeric; the other precedence cases fire on
tailored records; and the numeric dispatch writes exactly the slot `f` of
the plain output map. -/
theorem C10_grouping_precedence_and_single_write_witness :
    classifyFeature w10State "f" w10Stats = some .numeric ∧
    classifyFeature w10State "f" [("vocab", .vocab ["x"])] = some .categorical ∧
    classifyFeature w10StateText "f" [] = some .text ∧
    classifyFeature w10StateDate "f" [] = some .date ∧
    ((outputKeys w10Result = odSetKeys (outputKeys w10State) "f" ∧
        outputCatKeys w10Result = outputCatKeys w10State) ∨
      (outputKeys w10Result = outputKeys w10State ∧
        outputCatKeys w10Result = odSetKeys (outputCatKeys w10State) "f")) := by
  refine ⟨?_, ?_, ?_, ?_, ?_⟩
  · exact (C10_grouping_precedence_and_single_write w10State "f" w10Stats).1 (by decide)
  · exact (C10_grouping_precedence_and_single_write w10State "f"
      [("vocab", .vocab ["x"])]).2.1 (by decide) (by decide) (by decide)
  · exact (C10_grouping_precedence_and_single_write w10StateText "f" []).2.2.1
      (by decide) (by decide)
  · exact (C10_grouping_precedence_and_single_write w10StateDate "f" []).2.2.2.1
      (by decide) (by decide) (by decide) (by decide)
  · exact (C10_grouping_precedence_and_single_write w10State "f" w10Stats).2.2.2.2
      .numeric w10Result (by decide)

end KDP
